import Mathlib

/-!
Shallow embedding of the real-time collaboration engine in
`backend/python/app/socket_handlers.py` (collaborative whiteboard).

Python dicts are modelled as insertion-ordered association lists
(`List (String × α)`); Python sets of sids as insertion-ordered lists
without duplicates under the provided `setAdd`/`setDiscard` operations.
The points stored in strokes and the values stored in object properties
are arbitrary JSON data in the source, so the embedding is polymorphic
in a point type `P` and a property-value type `V`.

Each socket.io event handler becomes a pure function from the server
state (the module-level `BoardState` instance) to a new state plus the
list of transport effects (`sio.emit` / `enter_room` / `leave_room`)
the handler performs, in program order.
-/

/-- An entry of the `layers` list of a board (seeded in `get_or_create_board`). -/
structure Layer where
  id : String
  name : String
  visible : Bool
  locked : Bool
deriving DecidableEq, Repr

/-- The per-sid record stored in `BoardState.users`. -/
structure Participant where
  user_id : String
  display_name : String
  board_id : String
  joined_at : String
deriving DecidableEq, Repr

/-- A stroke dict as built by the `stroke_start` handler.  `id` is
`data.get("stroke_id")`, which is `None` when the field is absent. -/
structure Stroke (P : Type) where
  id : Option String
  user_id : String
  tool : String
  color : String
  size : Nat
  layer_id : String
  points : List P
  completed : Bool
deriving DecidableEq, Repr

/-- An object dict as built by the `object_add` handler. -/
structure Obj (V : Type) where
  id : Option String
  type : Option String
  properties : List (String × V)
  layer_id : String
  user_id : String
deriving DecidableEq, Repr

/-- One board's dict `{strokes, objects, layers}`. -/
structure Board (P V : Type) where
  strokes : List (Stroke P)
  objects : List (Obj V)
  layers : List Layer
deriving DecidableEq, Repr

/-- The fields of the module-level `BoardState` instance. -/
structure ServerState (P V : Type) where
  boards : List (String × Board P V)
  users : List (String × Participant)
  board_users : List (String × List String)
deriving DecidableEq, Repr

/-- Python `d.get(k)` / `d[k]` on a string-keyed dict. -/
def dictGet {α : Type} : List (String × α) → String → Option α
  | [], _ => none
  | p :: rest, k => if p.1 = k then some p.2 else dictGet rest k

/-- Python `d[k] = v`: overwrite in place if the key exists (keeping its
position), otherwise append. -/
def dictSet {α : Type} : List (String × α) → String → α → List (String × α)
  | [], k, v => [(k, v)]
  | p :: rest, k, v => if p.1 = k then (k, v) :: rest else p :: dictSet rest k v

/-- Python `k in d`. -/
def dictHas {α : Type} (m : List (String × α)) (k : String) : Bool :=
  (dictGet m k).isSome

/-- Python `del d[k]`. -/
def dictDel {α : Type} (m : List (String × α)) (k : String) : List (String × α) :=
  m.filter (fun p => decide (p.1 ≠ k))

/-- Mutate the value stored at `k` in place, if present. -/
def dictModify {α : Type} (m : List (String × α)) (k : String) (f : α → α) :
    List (String × α) :=
  m.map (fun p => if p.1 = k then (p.1, f p.2) else p)

/-- Python `d.update(upd)`: set each key of `upd` in turn. -/
def dictUpdate {α : Type} (m upd : List (String × α)) : List (String × α) :=
  upd.foldl (fun acc p => dictSet acc p.1 p.2) m

/-- Python `s.add(x)` on a set of sids. -/
def setAdd (s : List String) (x : String) : List String :=
  if x ∈ s then s else s ++ [x]

/-- Python `s.discard(x)` on a set of sids. -/
def setDiscard (s : List String) (x : String) : List String :=
  s.filter (fun y => decide (y ≠ x))

/-- The default layer seeded on board creation. -/
def defaultLayer : Layer :=
  { id := "default", name := "Layer 1", visible := true, locked := false }

/-- `BoardState.get_or_create_board`: returns the (possibly fresh) board
together with the updated state.  On creation it also seeds
`board_users[board_id] = set()`. -/
def get_or_create_board {P V : Type} (s : ServerState P V) (board_id : String) :
    ServerState P V × Board P V :=
  match dictGet s.boards board_id with
  | some b => (s, b)
  | none =>
    let fresh : Board P V := { strokes := [], objects := [], layers := [defaultLayer] }
    ({ s with boards := dictSet s.boards board_id fresh,
              board_users := dictSet s.board_users board_id [] }, fresh)

/-- `BoardState.add_user`: registers the participant, then adds the sid to
the board's membership set only if that set already exists. -/
def add_user {P V : Type} (s : ServerState P V)
    (sid user_id display_name board_id now : String) : ServerState P V :=
  let part : Participant :=
    { user_id := user_id, display_name := display_name,
      board_id := board_id, joined_at := now }
  let s1 := { s with users := dictSet s.users sid part }
  if dictHas s1.board_users board_id then
    { s1 with board_users := dictModify s1.board_users board_id (fun t => setAdd t sid) }
  else s1

/-- `BoardState.remove_user`: deletes the participant record and discards
the sid from its board's set, returning the prior board_id. -/
def remove_user {P V : Type} (s : ServerState P V) (sid : String) :
    ServerState P V × Option String :=
  match dictGet s.users sid with
  | some part =>
    let s1 := { s with users := dictDel s.users sid }
    let s2 :=
      if dictHas s1.board_users part.board_id then
        { s1 with board_users :=
            dictModify s1.board_users part.board_id (fun t => setDiscard t sid) }
      else s1
    (s2, some part.board_id)
  | none => (s, none)

/-- `BoardState.get_board_user_count`. -/
def get_board_user_count {P V : Type} (s : ServerState P V) (board_id : String) : Nat :=
  ((dictGet s.board_users board_id).getD []).length

/-- `BoardState.get_board_users`. -/
def get_board_users {P V : Type} (s : ServerState P V) (board_id : String) :
    List Participant :=
  ((dictGet s.board_users board_id).getD []).filterMap (fun sid => dictGet s.users sid)

/-- Destination of a `sio.emit` call: `to=sid`, `room=board` or
`room=board, skip_sid=sid`. -/
inductive Dest where
  | toSid (sid : String)
  | room (board_id : String)
  | roomSkip (board_id : String) (skip : String)
deriving DecidableEq, Repr

/-- The payload dict of each outbound event, with exactly the fields the
source passes to `sio.emit`. -/
inductive Payload (P V : Type) where
  | connectedP (sid : String)
  | boardStateP (board_id : String) (strokes : List (Stroke P))
      (objects : List (Obj V)) (layers : List Layer) (users : List Participant)
  | userJoinedP (sid user_id display_name : String)
  | userLeftP (sid : String)
  | userCountP (count : Nat)
  | strokeStartP (stroke_id : Option String) (user_id tool color : String)
      (size : Nat) (layer_id : String)
  | strokeUpdateP (stroke_id : Option String) (points : List P)
  | strokeEndP (stroke_id : Option String)
  | cursorUpdateP (user_id display_name : String) (x y : Int)
  | boardClearedP (cleared_by : String)
  | objectAddedP (object_id : Option String) (type : Option String)
      (properties : List (String × V)) (layer_id user_id : String)
  | objectUpdatedP (object_id : Option String) (properties : List (String × V))
      (user_id : String)
  | objectDeletedP (object_id : Option String) (user_id : String)
deriving DecidableEq, Repr

/-- A transport effect performed by a handler, in program order. -/
inductive Effect (P V : Type) where
  | emit (event : String) (payload : Payload P V) (dest : Dest)
  | enterRoom (sid room : String)
  | leaveRoom (sid room : String)
deriving DecidableEq, Repr

/-- Payload of the inbound `join_board` event (`data.get` fields). -/
structure JoinData where
  board_id : Option String
  user_id : Option String
  display_name : Option String
deriving DecidableEq, Repr

/-- Payload of the inbound `stroke_start` event. -/
structure StrokeStartData where
  stroke_id : Option String
  tool : Option String
  color : Option String
  size : Option Nat
  layer_id : Option String
deriving DecidableEq, Repr

/-- Payload of the inbound `stroke_update` event. -/
structure StrokeUpdateData (P : Type) where
  stroke_id : Option String
  points : Option (List P)
deriving DecidableEq, Repr

/-- Payload of the inbound `stroke_end` event. -/
structure StrokeEndData where
  stroke_id : Option String
deriving DecidableEq, Repr

/-- Payload of the inbound `cursor_move` event. -/
structure CursorData where
  x : Option Int
  y : Option Int
deriving DecidableEq, Repr

/-- Payload of the inbound `object_add` event. -/
structure ObjectAddData (V : Type) where
  object_id : Option String
  type : Option String
  properties : Option (List (String × V))
  layer_id : Option String
deriving DecidableEq, Repr

/-- Payload of the inbound `object_update` event. -/
structure ObjectUpdateData (V : Type) where
  object_id : Option String
  properties : Option (List (String × V))
deriving DecidableEq, Repr

/-- Payload of the inbound `object_delete` event. -/
structure ObjectDeleteData where
  object_id : Option String
deriving DecidableEq, Repr

/-- The `connect` handler. -/
def connect {P V : Type} (s : ServerState P V) (sid : String) :
    ServerState P V × List (Effect P V) :=
  (s, [Effect.emit "connected" (Payload.connectedP sid) (Dest.toSid sid)])

/-- The `disconnect` handler: `remove_user`, then (when the returned
board_id is truthy) leave the room and emit `user_left` / `user_count`. -/
def disconnect {P V : Type} (s : ServerState P V) (sid : String) :
    ServerState P V × List (Effect P V) :=
  match remove_user s sid with
  | (s1, some board_id) =>
    if board_id = "" then (s1, []) else
    (s1, [Effect.leaveRoom sid board_id,
          Effect.emit "user_left" (Payload.userLeftP sid) (Dest.roomSkip board_id sid),
          Effect.emit "user_count" (Payload.userCountP (get_board_user_count s1 board_id))
            (Dest.room board_id)])
  | (s1, none) => (s1, [])

/-- The `join_board` handler.  `now` stands for the wall-clock string
`datetime.utcnow().isoformat()`. -/
def join_board {P V : Type} (s : ServerState P V) (sid : String) (data : JoinData)
    (now : String) : ServerState P V × List (Effect P V) :=
  let board_id := data.board_id.getD "default"
  let user_id := data.user_id.getD sid
  let display_name := data.display_name.getD ("User-" ++ sid.take 6)
  let s1 := add_user s sid user_id display_name board_id now
  let r := get_or_create_board s1 board_id
  let s2 := r.1
  let board := r.2
  (s2, [Effect.enterRoom sid board_id,
        Effect.emit "board_state"
          (Payload.boardStateP board_id board.strokes board.objects board.layers
            (get_board_users s2 board_id)) (Dest.toSid sid),
        Effect.emit "user_joined" (Payload.userJoinedP sid user_id display_name)
          (Dest.roomSkip board_id sid),
        Effect.emit "user_count" (Payload.userCountP (get_board_user_count s2 board_id))
          (Dest.room board_id)])

/-- The `leave_board` handler (same body as `disconnect` in the source). -/
def leave_board {P V : Type} (s : ServerState P V) (sid : String) :
    ServerState P V × List (Effect P V) :=
  match remove_user s sid with
  | (s1, some board_id) =>
    if board_id = "" then (s1, []) else
    (s1, [Effect.leaveRoom sid board_id,
          Effect.emit "user_left" (Payload.userLeftP sid) (Dest.roomSkip board_id sid),
          Effect.emit "user_count" (Payload.userCountP (get_board_user_count s1 board_id))
            (Dest.room board_id)])
  | (s1, none) => (s1, [])

/-- The `stroke_start` handler. -/
def stroke_start {P V : Type} (s : ServerState P V) (sid : String)
    (data : StrokeStartData) : ServerState P V × List (Effect P V) :=
  match dictGet s.users sid with
  | none => (s, [])
  | some user =>
    let board_id := user.board_id
    let stroke_id := data.stroke_id
    let s1 :=
      match dictGet s.boards board_id with
      | some board =>
        let stroke : Stroke P :=
          { id := stroke_id, user_id := user.user_id,
            tool := data.tool.getD "pen", color := data.color.getD "#000000",
            size := data.size.getD 2, layer_id := data.layer_id.getD "default",
            points := [], completed := false }
        let board1 := { board with strokes := board.strokes ++ [stroke] }
        { s with boards := dictSet s.boards board_id board1 }
      | none => s
    (s1, [Effect.emit "stroke_start"
            (Payload.strokeStartP stroke_id user.user_id (data.tool.getD "pen")
              (data.color.getD "#000000") (data.size.getD 2) (data.layer_id.getD "default"))
            (Dest.roomSkip board_id sid)])

/-- The stroke-mutation loop of `stroke_update`: walk the strokes list and
extend the points of the first stroke whose id matches and whose
`completed` is false (`break` afterwards); a completed match is skipped
and the walk continues. -/
def updatePoints {P : Type} : List (Stroke P) → Option String → List P → List (Stroke P)
  | [], _, _ => []
  | st :: rest, stroke_id, pts =>
    if st.id = stroke_id ∧ st.completed = false then
      { st with points := st.points ++ pts } :: rest
    else st :: updatePoints rest stroke_id pts

/-- The `stroke_update` handler. -/
def stroke_update {P V : Type} (s : ServerState P V) (sid : String)
    (data : StrokeUpdateData P) : ServerState P V × List (Effect P V) :=
  match dictGet s.users sid with
  | none => (s, [])
  | some user =>
    let board_id := user.board_id
    let stroke_id := data.stroke_id
    let points := data.points.getD []
    let s1 :=
      match dictGet s.boards board_id with
      | some board =>
        let board1 := { board with strokes := updatePoints board.strokes stroke_id points }
        { s with boards := dictSet s.boards board_id board1 }
      | none => s
    (s1, [Effect.emit "stroke_update" (Payload.strokeUpdateP stroke_id points)
            (Dest.roomSkip board_id sid)])

/-- The stroke-mutation loop of `stroke_end`: set `completed := true` on the
first stroke whose id matches, regardless of its current `completed`
value (`break` afterwards). -/
def markComplete {P : Type} : List (Stroke P) → Option String → List (Stroke P)
  | [], _ => []
  | st :: rest, stroke_id =>
    if st.id = stroke_id then { st with completed := true } :: rest
    else st :: markComplete rest stroke_id

/-- The `stroke_end` handler. -/
def stroke_end {P V : Type} (s : ServerState P V) (sid : String)
    (data : StrokeEndData) : ServerState P V × List (Effect P V) :=
  match dictGet s.users sid with
  | none => (s, [])
  | some user =>
    let board_id := user.board_id
    let stroke_id := data.stroke_id
    let s1 :=
      match dictGet s.boards board_id with
      | some board =>
        let board1 := { board with strokes := markComplete board.strokes stroke_id }
        { s with boards := dictSet s.boards board_id board1 }
      | none => s
    (s1, [Effect.emit "stroke_end" (Payload.strokeEndP stroke_id)
            (Dest.roomSkip board_id sid)])

/-- The `cursor_move` handler (no state mutation). -/
def cursor_move {P V : Type} (s : ServerState P V) (sid : String)
    (data : CursorData) : ServerState P V × List (Effect P V) :=
  match dictGet s.users sid with
  | none => (s, [])
  | some user =>
    (s, [Effect.emit "cursor_update"
           (Payload.cursorUpdateP user.user_id user.display_name
             (data.x.getD 0) (data.y.getD 0))
           (Dest.roomSkip user.board_id sid)])

/-- The `clear_board` handler: empty the strokes and objects of the
sender's board (layers untouched) and broadcast to the whole room,
sender included. -/
def clear_board {P V : Type} (s : ServerState P V) (sid : String) :
    ServerState P V × List (Effect P V) :=
  match dictGet s.users sid with
  | none => (s, [])
  | some user =>
    let board_id := user.board_id
    let s1 :=
      match dictGet s.boards board_id with
      | some board =>
        let board1 := { board with strokes := ([] : List (Stroke P)),
                                   objects := ([] : List (Obj V)) }
        { s with boards := dictSet s.boards board_id board1 }
      | none => s
    (s1, [Effect.emit "board_cleared" (Payload.boardClearedP user.user_id)
            (Dest.room board_id)])

/-- The `object_add` handler. -/
def object_add {P V : Type} (s : ServerState P V) (sid : String)
    (data : ObjectAddData V) : ServerState P V × List (Effect P V) :=
  match dictGet s.users sid with
  | none => (s, [])
  | some user =>
    let board_id := user.board_id
    let s1 :=
      match dictGet s.boards board_id with
      | some board =>
        let obj : Obj V :=
          { id := data.object_id, type := data.type,
            properties := data.properties.getD [],
            layer_id := data.layer_id.getD "default", user_id := user.user_id }
        let board1 := { board with objects := board.objects ++ [obj] }
        { s with boards := dictSet s.boards board_id board1 }
      | none => s
    (s1, [Effect.emit "object_added"
            (Payload.objectAddedP data.object_id data.type (data.properties.getD [])
              (data.layer_id.getD "default") user.user_id)
            (Dest.roomSkip board_id sid)])

/-- The object-mutation loop of `object_update`: merge the update's
properties (`dict.update`) into the first object whose id matches
(`break` afterwards). -/
def updateObjProps {V : Type} :
    List (Obj V) → Option String → List (String × V) → List (Obj V)
  | [], _, _ => []
  | o :: rest, object_id, props =>
    if o.id = object_id then
      { o with properties := dictUpdate o.properties props } :: rest
    else o :: updateObjProps rest object_id props

/-- The `object_update` handler. -/
def object_update {P V : Type} (s : ServerState P V) (sid : String)
    (data : ObjectUpdateData V) : ServerState P V × List (Effect P V) :=
  match dictGet s.users sid with
  | none => (s, [])
  | some user =>
    let board_id := user.board_id
    let object_id := data.object_id
    let properties := data.properties.getD []
    let s1 :=
      match dictGet s.boards board_id with
      | some board =>
        let board1 := { board with objects := updateObjProps board.objects object_id properties }
        { s with boards := dictSet s.boards board_id board1 }
      | none => s
    (s1, [Effect.emit "object_updated"
            (Payload.objectUpdatedP object_id properties user.user_id)
            (Dest.roomSkip board_id sid)])

/-- The `object_delete` handler: keep exactly the objects whose id differs
from the target (the list comprehension filter). -/
def object_delete {P V : Type} (s : ServerState P V) (sid : String)
    (data : ObjectDeleteData) : ServerState P V × List (Effect P V) :=
  match dictGet s.users sid with
  | none => (s, [])
  | some user =>
    let board_id := user.board_id
    let object_id := data.object_id
    let s1 :=
      match dictGet s.boards board_id with
      | some board =>
        let kept := board.objects.filter (fun o => decide (o.id ≠ object_id))
        let board1 := { board with objects := kept }
        { s with boards := dictSet s.boards board_id board1 }
      | none => s
    (s1, [Effect.emit "object_deleted"
            (Payload.objectDeletedP object_id user.user_id)
            (Dest.roomSkip board_id sid)])

/-- The initial server state: all three `BoardState` dicts empty. -/
def emptyState {P V : Type} : ServerState P V :=
  { boards := [], users := [], board_users := [] }

/-- Join payload with all three fields present. -/
def joinData (b u n : String) : JoinData :=
  { board_id := some b, user_id := some u, display_name := some n }

/-- State reached from the empty state by the four joins
`x→A, x→A, y→B, x→B` (used to exercise re-joining another board). -/
def rejoinState : ServerState Nat Nat :=
  (join_board (join_board (join_board (join_board emptyState
    "x" (joinData "A" "ux" "X") "t1").1
    "x" (joinData "A" "ux" "X") "t2").1
    "y" (joinData "B" "uy" "Y") "t3").1
    "x" (joinData "B" "ux" "X") "t4").1

/-- A completed stroke with id `s1`. -/
def demoStroke : Stroke Nat :=
  { id := some "s1", user_id := "u1", tool := "pen", color := "#000000",
    size := 2, layer_id := "default", points := [1, 2], completed := true }

/-- An unfinished stroke with id `s2`. -/
def demoStroke2 : Stroke Nat :=
  { demoStroke with id := some "s2", completed := false }

/-- An object with id `o1` and properties `{a:1, b:2}`. -/
def demoObj : Obj Nat :=
  { id := some "o1", type := some "rect", properties := [("a", 1), ("b", 2)],
    layer_id := "default", user_id := "u1" }

/-- A board holding the two demo strokes and the demo object. -/
def demoBoard : Board Nat Nat :=
  { strokes := [demoStroke, demoStroke2], objects := [demoObj], layers := [defaultLayer] }

/-- The resident participant record of connection `s`. -/
def demoU : Participant :=
  { user_id := "u1", display_name := "U", board_id := "b", joined_at := "t0" }

/-- A state with one resident board `b` and one registered connection `s`. -/
def demoState : ServerState Nat Nat :=
  { boards := [("b", demoBoard)], users := [("s", demoU)], board_users := [("b", ["s"])] }

/-- A state whose registered connection `s` points at a board `b` that is
not resident in `boards`. -/
def demoStateNoBoard : ServerState Nat Nat :=
  { boards := [], users := [("s", demoU)], board_users := [] }

/-- A board holding two strokes with the same id `s1`, the first completed
and the second not. -/
def dupBoard : Board Nat Nat :=
  { strokes := [demoStroke, { demoStroke with completed := false }],
    objects := [], layers := [defaultLayer] }

/-- A state holding `dupBoard`, with connection `s` registered on it. -/
def dupState : ServerState Nat Nat :=
  { boards := [("b", dupBoard)], users := [("s", demoU)], board_users := [("b", ["s"])] }

/-- An all-defaults `stroke_start` payload. -/
def noStrokeStartData : StrokeStartData :=
  { stroke_id := none, tool := none, color := none, size := none, layer_id := none }

/-- An all-defaults `stroke_update` payload. -/
def noStrokeUpdateData : StrokeUpdateData Nat := { stroke_id := none, points := none }

/-- An all-defaults `stroke_end` payload. -/
def noStrokeEndData : StrokeEndData := { stroke_id := none }

/-- An all-defaults `cursor_move` payload. -/
def noCursorData : CursorData := { x := none, y := none }

/-- An all-defaults `object_add` payload. -/
def noObjectAddData : ObjectAddData Nat :=
  { object_id := none, type := none, properties := none, layer_id := none }

/-- An all-defaults `object_update` payload. -/
def noObjectUpdateData : ObjectUpdateData Nat := { object_id := none, properties := none }

/-- An all-defaults `object_delete` payload. -/
def noObjectDeleteData : ObjectDeleteData := { object_id := none }

theorem dictGet_dictSet_self {α : Type} (m : List (String × α)) (k : String) (v : α) :
    dictGet (dictSet m k v) k = some v := by
  induction m with
  | nil => simp [dictSet, dictGet]
  | cons p rest ih =>
    by_cases h : p.1 = k
    · simp [dictSet, dictGet, h]
    · simp [dictSet, dictGet, h, ih]

theorem dictGet_dictSet_ne {α : Type} (m : List (String × α)) {k k' : String} (v : α)
    (h : k' ≠ k) : dictGet (dictSet m k v) k' = dictGet m k' := by
  induction m with
  | nil => simp [dictSet, dictGet, Ne.symm h]
  | cons p rest ih =>
    by_cases hp : p.1 = k
    · simp [dictSet, dictGet, hp, Ne.symm h]
    · simp [dictSet, dictGet, hp, ih]

theorem dictSet_eq_of_dictGet {α : Type} (m : List (String × α)) (k : String) (v : α)
    (h : dictGet m k = some v) : dictSet m k v = m := by
  induction m with
  | nil => simp [dictGet] at h
  | cons p rest ih =>
    by_cases hp : p.1 = k
    · obtain ⟨a, b⟩ := p
      simp only [dictGet, if_pos hp] at h
      injection h with h
      simp only [dictSet, if_pos hp]
      simp only at hp
      rw [hp, h]
    · simp only [dictGet, if_neg hp] at h
      simp [dictSet, if_neg hp, ih h]

theorem dictSet_dictSet {α : Type} (m : List (String × α)) (k : String) (v w : α) :
    dictSet (dictSet m k v) k w = dictSet m k w := by
  induction m with
  | nil => simp [dictSet]
  | cons p rest ih =>
    by_cases hp : p.1 = k
    · simp [dictSet, hp]
    · simp [dictSet, hp, ih]

theorem dictGet_dictUpdate_not_mem {α : Type} (m upd : List (String × α)) (k : String)
    (h : k ∉ upd.map Prod.fst) : dictGet (dictUpdate m upd) k = dictGet m k := by
  induction upd generalizing m with
  | nil => rfl
  | cons p rest ih =>
    simp only [List.map_cons, List.mem_cons] at h
    push_neg at h
    show dictGet (dictUpdate (dictSet m p.1 p.2) rest) k = dictGet m k
    rw [ih _ h.2, dictGet_dictSet_ne _ _ h.1]

theorem dictGet_dictUpdate {α : Type} (m upd : List (String × α)) (k : String)
    (h : (upd.map Prod.fst).Nodup) :
    dictGet (dictUpdate m upd) k =
      match dictGet upd k with
      | some v => some v
      | none => dictGet m k := by
  induction upd generalizing m with
  | nil => rfl
  | cons p rest ih =>
    simp only [List.map_cons, List.nodup_cons] at h
    show dictGet (dictUpdate (dictSet m p.1 p.2) rest) k = _
    by_cases hk : p.1 = k
    · subst hk
      rw [dictGet_dictUpdate_not_mem _ _ _ h.1, dictGet_dictSet_self]
      simp [dictGet]
    · rw [ih _ h.2]
      cases hr : dictGet rest k with
      | some v => simp [dictGet, hk, hr]
      | none => simp [dictGet, hk, hr, dictGet_dictSet_ne _ _ (Ne.symm hk)]

theorem updatePoints_all_completed {P : Type} (l : List (Stroke P)) (tid : Option String)
    (pts : List P) (h : ∀ st ∈ l, st.id = tid → st.completed = true) :
    updatePoints l tid pts = l := by
  induction l with
  | nil => rfl
  | cons st rest ih =>
    have hne : ¬(st.id = tid ∧ st.completed = false) := by
      rintro ⟨h1, h2⟩
      rw [h st (List.mem_cons_self st rest) h1] at h2
      simp at h2
    simp only [updatePoints, if_neg hne]
    rw [ih (fun s' hs' => h s' (List.mem_cons_of_mem st hs'))]

theorem updatePoints_get_completed {P : Type} (l : List (Stroke P)) (tid : Option String)
    (pts : List P) (i : Nat) (st : Stroke P)
    (h : l.get? i = some st) (hc : st.completed = true) :
    (updatePoints l tid pts).get? i = some st := by
  induction l generalizing i with
  | nil => simp [List.get?] at h
  | cons s0 rest ih =>
    simp only [updatePoints]
    split
    · rename_i hcond
      cases i with
      | zero =>
        simp only [List.get?_cons_zero] at h
        injection h with h
        rw [← h, hcond.2] at hc
        simp at hc
      | succ n =>
        simp only [List.get?_cons_succ] at h ⊢
        exact h
    · cases i with
      | zero =>
        simp only [List.get?_cons_zero] at h ⊢
        exact h
      | succ n =>
        simp only [List.get?_cons_succ] at h ⊢
        exact ih n h

theorem markComplete_append {P : Type} (pre post : List (Stroke P)) (st : Stroke P)
    (tid : Option String) (hpre : ∀ s' ∈ pre, ¬ s'.id = tid) (hst : st.id = tid) :
    markComplete (pre ++ st :: post) tid = pre ++ ({ st with completed := true }) :: post := by
  induction pre with
  | nil => simp [markComplete, hst]
  | cons q rest ih =>
    have hq : ¬ q.id = tid := hpre q (List.mem_cons_self q rest)
    simp only [List.cons_append, markComplete, if_neg hq]
    exact congrArg (q :: ·) (ih (fun s' hs' => hpre s' (List.mem_cons_of_mem q hs')))

theorem markComplete_no_match {P : Type} (l : List (Stroke P)) (tid : Option String)
    (h : ∀ st ∈ l, ¬ st.id = tid) : markComplete l tid = l := by
  induction l with
  | nil => rfl
  | cons st rest ih =>
    simp only [markComplete, if_neg (h st (List.mem_cons_self st rest))]
    rw [ih (fun s' hs' => h s' (List.mem_cons_of_mem st hs'))]

theorem markComplete_idem {P : Type} (l : List (Stroke P)) (tid : Option String) :
    markComplete (markComplete l tid) tid = markComplete l tid := by
  induction l with
  | nil => rfl
  | cons st rest ih =>
    by_cases h : st.id = tid
    · simp [markComplete, h]
    · simp [markComplete, h, ih]

theorem updateObjProps_append {V : Type} (pre post : List (Obj V)) (o : Obj V)
    (oid : Option String) (ps : List (String × V))
    (hpre : ∀ o' ∈ pre, ¬ o'.id = oid) (ho : o.id = oid) :
    updateObjProps (pre ++ o :: post) oid ps =
      pre ++ ({ o with properties := dictUpdate o.properties ps }) :: post := by
  induction pre with
  | nil => simp [updateObjProps, ho]
  | cons q rest ih =>
    have hq : ¬ q.id = oid := hpre q (List.mem_cons_self q rest)
    simp only [List.cons_append, updateObjProps, if_neg hq]
    exact congrArg (q :: ·) (ih (fun o' ho' => hpre o' (List.mem_cons_of_mem q ho')))

theorem updateObjProps_no_match {V : Type} (l : List (Obj V)) (oid : Option String)
    (ps : List (String × V)) (h : ∀ o ∈ l, ¬ o.id = oid) :
    updateObjProps l oid ps = l := by
  induction l with
  | nil => rfl
  | cons o rest ih =>
    simp only [updateObjProps, if_neg (h o (List.mem_cons_self o rest))]
    rw [ih (fun o' ho' => h o' (List.mem_cons_of_mem o ho'))]

theorem add_user_boards {P V : Type} (s : ServerState P V)
    (sid user_id display_name board_id now : String) :
    (add_user s sid user_id display_name board_id now).boards = s.boards := by
  simp only [add_user]
  split <;> rfl

/-- C1: evaluation of the code at the failing input.  The claim says the
very first `join_board` for a never-before-seen board leaves
`get_board_user_count` at 1 (N−M with N=1, M=0); the code yields 0,
because `join_board` calls `add_user` before `get_or_create_board`, and
`add_user` only inserts the sid when the board's membership set already
exists. -/
theorem c1_first_join_count_zero :
    get_board_user_count
      (join_board (emptyState : ServerState Nat Nat) "s" (joinData "b" "u" "A") "t").1 "b"
      = 0 := by
  decide

/-- C2: counterexample to the membership invariant.  After the event
sequence `join x A, join x A, join y B, join x B` the connection `x`
is present in both board `A`'s and board `B`'s membership sets, while
its registered participant record points at board `B` — refuting both
"a sid appears in at most one board's set" and "the membership set
equals the sids whose participant board_id is that board". -/
theorem c2_sid_in_two_board_sets :
    "x" ∈ (dictGet rejoinState.board_users "A").getD [] ∧
    "x" ∈ (dictGet rejoinState.board_users "B").getD [] ∧
    dictGet rejoinState.users "x" =
      some ({ user_id := "ux", display_name := "X", board_id := "B", joined_at := "t4" }) := by
  decide

/-- C4: every handler whose precondition is a registered participant
(leave_board, disconnect, stroke_start, stroke_update, stroke_end,
cursor_move, clear_board, object_add, object_update, object_delete) is a
silent no-op when the session registry has no entry for the sender's
sid: the state is returned unchanged and no effect is performed. -/
theorem c4_unregistered_silent_noop {P V : Type} (s : ServerState P V) (sid : String)
    (d1 : StrokeStartData) (d2 : StrokeUpdateData P) (d3 : StrokeEndData) (d4 : CursorData)
    (d5 : ObjectAddData V) (d6 : ObjectUpdateData V) (d7 : ObjectDeleteData)
    (hu : dictGet s.users sid = none) :
    leave_board s sid = (s, []) ∧ disconnect s sid = (s, []) ∧
    stroke_start s sid d1 = (s, []) ∧ stroke_update s sid d2 = (s, []) ∧
    stroke_end s sid d3 = (s, []) ∧ cursor_move s sid d4 = (s, []) ∧
    clear_board s sid = (s, []) ∧ object_add s sid d5 = (s, []) ∧
    object_update s sid d6 = (s, []) ∧ object_delete s sid d7 = (s, []) := by
  refine ⟨?_, ?_, ?_, ?_, ?_, ?_, ?_, ?_, ?_, ?_⟩ <;>
    simp [leave_board, disconnect, stroke_start, stroke_update, stroke_end, cursor_move,
      clear_board, object_add, object_update, object_delete, remove_user, hu]

/-- C4 witness: the silent no-op at the empty state. -/
theorem c4_unregistered_silent_noop_witness :
    leave_board (emptyState : ServerState Nat Nat) "s" = (emptyState, []) ∧
    disconnect (emptyState : ServerState Nat Nat) "s" = (emptyState, []) ∧
    stroke_start (emptyState : ServerState Nat Nat) "s" noStrokeStartData = (emptyState, []) ∧
    stroke_update (emptyState : ServerState Nat Nat) "s" noStrokeUpdateData = (emptyState, []) ∧
    stroke_end (emptyState : ServerState Nat Nat) "s" noStrokeEndData = (emptyState, []) ∧
    cursor_move (emptyState : ServerState Nat Nat) "s" noCursorData = (emptyState, []) ∧
    clear_board (emptyState : ServerState Nat Nat) "s" = (emptyState, []) ∧
    object_add (emptyState : ServerState Nat Nat) "s" noObjectAddData = (emptyState, []) ∧
    object_update (emptyState : ServerState Nat Nat) "s" noObjectUpdateData = (emptyState, []) ∧
    object_delete (emptyState : ServerState Nat Nat) "s" noObjectDeleteData = (emptyState, []) :=
  c4_unregistered_silent_noop emptyState "s" noStrokeStartData noStrokeUpdateData
    noStrokeEndData noCursorData noObjectAddData noObjectUpdateData noObjectDeleteData rfl

/-- C7: with a registered sender whose board is resident, `clear_board`
empties the board's strokes and objects, leaves its layers (and the
registry and membership index) unchanged, and broadcasts `board_cleared`
to the whole room without excluding the sender. -/
theorem c7_clear_board_clears {P V : Type} (s : ServerState P V) (sid : String)
    (u : Participant) (b : Board P V)
    (hu : dictGet s.users sid = some u) (hb : dictGet s.boards u.board_id = some b) :
    (clear_board s sid).1 = { s with boards := dictSet s.boards u.board_id ({ b with strokes := [], objects := [] }) } ∧
    dictGet (clear_board s sid).1.boards u.board_id =
      some ({ b with strokes := [], objects := [] }) ∧
    (clear_board s sid).1.users = s.users ∧
    (clear_board s sid).1.board_users = s.board_users ∧
    (clear_board s sid).2 =
      [Effect.emit "board_cleared" (Payload.boardClearedP u.user_id) (Dest.room u.board_id)] := by
  have hmain : (clear_board s sid).1 = { s with boards := dictSet s.boards u.board_id ({ b with strokes := [], objects := [] }) } := by
    simp [clear_board, hu, hb]
  refine ⟨hmain, ?_, ?_, ?_, ?_⟩
  · rw [hmain]; exact dictGet_dictSet_self _ _ _
  · rw [hmain]
  · rw [hmain]
  · simp [clear_board, hu, hb]

/-- C7 witness: clearing the demo board. -/
theorem c7_clear_board_clears_witness :
    (clear_board demoState "s").1 = { demoState with boards := dictSet demoState.boards "b" ({ demoBoard with strokes := [], objects := [] }) } :=
  (c7_clear_board_clears demoState "s" demoU demoBoard rfl rfl).1

/-- C9: a drawing/object event from a registered participant whose board
is not resident leaves the entire state unchanged yet still emits the
corresponding broadcast to the room. -/
theorem c9_board_absent_noop_broadcast {P V : Type} (s : ServerState P V) (sid : String)
    (u : Participant) (d1 : StrokeStartData) (d2 : StrokeUpdateData P) (d3 : StrokeEndData)
    (d5 : ObjectAddData V) (d6 : ObjectUpdateData V) (d7 : ObjectDeleteData)
    (hu : dictGet s.users sid = some u) (hb : dictGet s.boards u.board_id = none) :
    stroke_start s sid d1 = (s, [Effect.emit "stroke_start"
        (Payload.strokeStartP d1.stroke_id u.user_id (d1.tool.getD "pen")
          (d1.color.getD "#000000") (d1.size.getD 2) (d1.layer_id.getD "default"))
        (Dest.roomSkip u.board_id sid)]) ∧
    stroke_update s sid d2 = (s, [Effect.emit "stroke_update"
        (Payload.strokeUpdateP d2.stroke_id (d2.points.getD []))
        (Dest.roomSkip u.board_id sid)]) ∧
    stroke_end s sid d3 = (s, [Effect.emit "stroke_end" (Payload.strokeEndP d3.stroke_id)
        (Dest.roomSkip u.board_id sid)]) ∧
    clear_board s sid = (s, [Effect.emit "board_cleared" (Payload.boardClearedP u.user_id)
        (Dest.room u.board_id)]) ∧
    object_add s sid d5 = (s, [Effect.emit "object_added"
        (Payload.objectAddedP d5.object_id d5.type (d5.properties.getD [])
          (d5.layer_id.getD "default") u.user_id) (Dest.roomSkip u.board_id sid)]) ∧
    object_update s sid d6 = (s, [Effect.emit "object_updated"
        (Payload.objectUpdatedP d6.object_id (d6.properties.getD []) u.user_id)
        (Dest.roomSkip u.board_id sid)]) ∧
    object_delete s sid d7 = (s, [Effect.emit "object_deleted"
        (Payload.objectDeletedP d7.object_id u.user_id) (Dest.roomSkip u.board_id sid)]) := by
  refine ⟨?_, ?_, ?_, ?_, ?_, ?_, ?_⟩ <;>
    simp [stroke_start, stroke_update, stroke_end, clear_board, object_add, object_update,
      object_delete, hu, hb]

/-- C9 witness: a `stroke_update` against a non-resident board. -/
theorem c9_board_absent_noop_broadcast_witness :
    stroke_update demoStateNoBoard "s" noStrokeUpdateData =
      (demoStateNoBoard, [Effect.emit "stroke_update" (Payload.strokeUpdateP none [])
        (Dest.roomSkip "b" "s")]) :=
  (c9_board_absent_noop_broadcast demoStateNoBoard "s" demoU noStrokeStartData
    noStrokeUpdateData noStrokeEndData noObjectAddData noObjectUpdateData
    noObjectDeleteData rfl rfl).2.1

/-- C10: `object_delete` replaces the board's objects with the filter
keeping exactly the objects whose id differs from the target, so the
result contains no object with the target id (all duplicates removed in
one event), every object with another id is kept, and the kept objects
form a sublist (original relative order) of the previous list. -/
theorem c10_object_delete_removes_all {P V : Type} (s : ServerState P V) (sid : String)
    (u : Participant) (b : Board P V) (d : ObjectDeleteData)
    (hu : dictGet s.users sid = some u) (hb : dictGet s.boards u.board_id = some b) :
    dictGet (object_delete s sid d).1.boards u.board_id =
      some ({ b with objects := b.objects.filter (fun o => decide (o.id ≠ d.object_id)) }) ∧
    (∀ o ∈ b.objects.filter (fun o => decide (o.id ≠ d.object_id)), ¬ o.id = d.object_id) ∧
    (∀ o ∈ b.objects, ¬ o.id = d.object_id →
       o ∈ b.objects.filter (fun o => decide (o.id ≠ d.object_id))) ∧
    List.Sublist (b.objects.filter (fun o => decide (o.id ≠ d.object_id))) b.objects := by
  refine ⟨?_, ?_, ?_, ?_⟩
  · simp [object_delete, hu, hb, dictGet_dictSet_self]
  · intro o ho
    have h := List.of_mem_filter ho
    simpa using h
  · intro o ho hne
    exact List.mem_filter_of_mem ho (by simpa using hne)
  · exact List.filter_sublist _

/-- C10 witness: deleting object `o1` from the demo board leaves no
objects. -/
theorem c10_object_delete_removes_all_witness :
    dictGet (object_delete demoState "s" ({ object_id := some "o1" })).1.boards "b" =
      some ({ demoBoard with objects := [] }) :=
  (c10_object_delete_removes_all demoState "s" demoU demoBoard { object_id := some "o1" }
    rfl rfl).1

/-- C3 counterexample: on a board holding two strokes with the same id
`s1` — the first completed, the second not — a `stroke_update`
targeting `s1` changes the stored board state (it extends the later,
non-completed duplicate), so the claim that the whole board state is
left unchanged is false at this input. -/
theorem c3_completed_update_counterexample :
    (stroke_update dupState "s" ({ stroke_id := some "s1", points := some [9] })).1
      ≠ dupState := by
  decide

/-- C3 (amended): `stroke_update` never mutates any stroke whose
`completed` field is true (its list entry is preserved positionally);
if every stroke on the board carrying the targeted id is completed, the
entire stored state is unchanged; and the broadcast is still emitted
either way. -/
theorem c3_completed_stroke_preserved {P V : Type} (s : ServerState P V) (sid : String)
    (u : Participant) (b : Board P V) (d : StrokeUpdateData P)
    (hu : dictGet s.users sid = some u) (hb : dictGet s.boards u.board_id = some b) :
    (∀ (i : Nat) (st : Stroke P), b.strokes.get? i = some st → st.completed = true →
       (updatePoints b.strokes d.stroke_id (d.points.getD [])).get? i = some st) ∧
    dictGet (stroke_update s sid d).1.boards u.board_id =
      some ({ b with strokes := updatePoints b.strokes d.stroke_id (d.points.getD []) }) ∧
    ((∀ st ∈ b.strokes, st.id = d.stroke_id → st.completed = true) →
       (stroke_update s sid d).1 = s) ∧
    (stroke_update s sid d).2 = [Effect.emit "stroke_update"
        (Payload.strokeUpdateP d.stroke_id (d.points.getD [])) (Dest.roomSkip u.board_id sid)] := by
  have hmain : (stroke_update s sid d).1 = { s with boards := dictSet s.boards u.board_id ({ b with strokes := updatePoints b.strokes d.stroke_id (d.points.getD []) }) } := by
    simp [stroke_update, hu, hb]
  refine ⟨?_, ?_, ?_, ?_⟩
  · intro i st h hc
    exact updatePoints_get_completed b.strokes d.stroke_id (d.points.getD []) i st h hc
  · rw [hmain]; exact dictGet_dictSet_self _ _ _
  · intro hall
    rw [hmain, updatePoints_all_completed b.strokes d.stroke_id (d.points.getD []) hall]
    rw [show ({ b with strokes := b.strokes } : Board P V) = b from rfl]
    rw [dictSet_eq_of_dictGet _ _ _ hb]
  · simp [stroke_update, hu, hb]

/-- C3 witness: on the demo board, where the only stroke with id `s1` is
completed, `stroke_update` targeting `s1` leaves the state unchanged. -/
theorem c3_completed_stroke_preserved_witness :
    (stroke_update demoState "s" ({ stroke_id := some "s1", points := some [9] })).1
      = demoState :=
  (c3_completed_stroke_preserved demoState "s" demoU demoBoard
    { stroke_id := some "s1", points := some [9] } rfl rfl).2.2.1 (by decide)

/-- C5: with a registered sender and resident board, `object_update` on a
board whose objects contain the targeted id merges field-wise into the
first such object: looking up any key in the merged properties yields
the update's value when the update names that key and the pre-existing
value otherwise, and all other objects (and positions) are untouched;
if no object carries the id, the whole state is unchanged. -/
theorem c5_object_update_merges {P V : Type} (s : ServerState P V) (sid : String)
    (u : Participant) (b : Board P V) (d : ObjectUpdateData V)
    (hu : dictGet s.users sid = some u) (hb : dictGet s.boards u.board_id = some b)
    (hnd : ((d.properties.getD []).map Prod.fst).Nodup) :
    ((∀ o ∈ b.objects, ¬ o.id = d.object_id) → (object_update s sid d).1 = s) ∧
    (∀ pre o post, b.objects = pre ++ o :: post →
      (∀ o' ∈ pre, ¬ o'.id = d.object_id) → o.id = d.object_id →
      dictGet (object_update s sid d).1.boards u.board_id =
        some ({ b with objects := pre ++ ({ o with properties := dictUpdate o.properties (d.properties.getD []) }) :: post }) ∧
      (∀ k, dictGet (dictUpdate o.properties (d.properties.getD [])) k =
        match dictGet (d.properties.getD []) k with
        | some v => some v
        | none => dictGet o.properties k)) := by
  have hmain : (object_update s sid d).1 = { s with boards := dictSet s.boards u.board_id ({ b with objects := updateObjProps b.objects d.object_id (d.properties.getD []) }) } := by
    simp [object_update, hu, hb]
  constructor
  · intro hnone
    rw [hmain, updateObjProps_no_match b.objects d.object_id (d.properties.getD []) hnone]
    rw [show ({ b with objects := b.objects } : Board P V) = b from rfl]
    rw [dictSet_eq_of_dictGet _ _ _ hb]
  · intro pre o post hsplit hpre ho
    constructor
    · rw [hmain, hsplit, updateObjProps_append pre post o d.object_id (d.properties.getD []) hpre ho]
      exact dictGet_dictSet_self _ _ _
    · intro k
      exact dictGet_dictUpdate o.properties (d.properties.getD []) k hnd

/-- C5 witness: merging `{b:3, c:4}` into the demo object's `{a:1, b:2}`
yields `{a:1, b:3, c:4}`. -/
theorem c5_object_update_merges_witness :
    dictGet (object_update demoState "s" ({ object_id := some "o1", properties := some [("b", 3), ("c", 4)] })).1.boards "b" =
      some ({ demoBoard with objects := [{ demoObj with properties := [("a", 1), ("b", 3), ("c", 4)] }] }) :=
  ((c5_object_update_merges demoState "s" demoU demoBoard
    { object_id := some "o1", properties := some [("b", 3), ("c", 4)] }
    rfl rfl (by decide)).2 [] demoObj [] rfl (by decide) rfl).1

theorem get_or_create_board_none {P V : Type} (s : ServerState P V) (bid : String)
    (h : dictGet s.boards bid = none) :
    get_or_create_board s bid =
      ({ s with boards := dictSet s.boards bid ({ strokes := [], objects := [], layers := [defaultLayer] }), board_users := dictSet s.board_users bid [] },
       { strokes := [], objects := [], layers := [defaultLayer] }) := by
  simp [get_or_create_board, h]

/-- C6: `get_or_create_board` is idempotent; on a board id not yet
resident it seeds the board with empty strokes, empty objects and
exactly the one default layer `{id:"default", name:"Layer 1",
visible:true, locked:false}`; and `join_board` for such a board id
sends the joiner a `board_state` effect carrying `[]`, `[]` and
`[defaultLayer]`. -/
theorem c6_fresh_board_seeded {P V : Type} (s : ServerState P V) (sid now : String)
    (d : JoinData) (hfresh : dictGet s.boards (d.board_id.getD "default") = none) :
    (∀ (t : ServerState P V) (bid : String),
       get_or_create_board (get_or_create_board t bid).1 bid = get_or_create_board t bid) ∧
    dictGet (get_or_create_board s (d.board_id.getD "default")).1.boards
        (d.board_id.getD "default") =
      some ({ strokes := [], objects := [], layers := [defaultLayer] }) ∧
    (∃ s2 us cnt, join_board s sid d now = (s2,
      [Effect.enterRoom sid (d.board_id.getD "default"),
       Effect.emit "board_state"
         (Payload.boardStateP (d.board_id.getD "default") [] [] [defaultLayer] us)
         (Dest.toSid sid),
       Effect.emit "user_joined"
         (Payload.userJoinedP sid (d.user_id.getD sid)
           (d.display_name.getD ("User-" ++ sid.take 6)))
         (Dest.roomSkip (d.board_id.getD "default") sid),
       Effect.emit "user_count" (Payload.userCountP cnt)
         (Dest.room (d.board_id.getD "default"))])) := by
  refine ⟨?_, ?_, ?_⟩
  · intro t bid
    cases hg : dictGet t.boards bid with
    | some bb => simp [get_or_create_board, hg]
    | none => simp [get_or_create_board, hg, dictGet_dictSet_self]
  · rw [get_or_create_board_none _ _ hfresh]
    exact dictGet_dictSet_self _ _ _
  · have hb2 : dictGet (add_user s sid (d.user_id.getD sid)
        (d.display_name.getD ("User-" ++ sid.take 6)) (d.board_id.getD "default")
        now).boards (d.board_id.getD "default") = none := by
      rw [add_user_boards]; exact hfresh
    refine ⟨(join_board s sid d now).1,
      get_board_users (join_board s sid d now).1 (d.board_id.getD "default"),
      get_board_user_count (join_board s sid d now).1 (d.board_id.getD "default"), ?_⟩
    simp only [join_board]
    rw [get_or_create_board_none _ _ hb2]

/-- C6 witness: the board created for a never-seen id is seeded with the
empty strokes, empty objects and the single default layer. -/
theorem c6_fresh_board_seeded_witness :
    dictGet (get_or_create_board (emptyState : ServerState Nat Nat) "b").1.boards "b" =
      some ({ strokes := [], objects := [], layers := [defaultLayer] }) :=
  (c6_fresh_board_seeded emptyState "s" "t" (joinData "b" "u" "A") rfl).2.1

theorem stroke_end_state {P V : Type} (t : ServerState P V) (sid : String)
    (u : Participant) (bb : Board P V) (d : StrokeEndData)
    (hu : dictGet t.users sid = some u) (hb : dictGet t.boards u.board_id = some bb) :
    (stroke_end t sid d).1 = { t with boards := dictSet t.boards u.board_id ({ bb with strokes := markComplete bb.strokes d.stroke_id }) } := by
  simp [stroke_end, hu, hb]

/-- C8: `stroke_end` sets `completed := true` on the first stroke whose id
matches, with no condition on its current completed value; if no stroke
matches, the state is unchanged; and applying `stroke_end` twice yields
the same state as applying it once. -/
theorem c8_stroke_end_completes {P V : Type} (s : ServerState P V) (sid : String)
    (u : Participant) (b : Board P V) (d : StrokeEndData)
    (hu : dictGet s.users sid = some u) (hb : dictGet s.boards u.board_id = some b) :
    (∀ pre st post, b.strokes = pre ++ st :: post →
       (∀ st' ∈ pre, ¬ st'.id = d.stroke_id) → st.id = d.stroke_id →
       (stroke_end s sid d).1 = { s with boards := dictSet s.boards u.board_id ({ b with strokes := pre ++ ({ st with completed := true }) :: post }) }) ∧
    ((∀ st ∈ b.strokes, ¬ st.id = d.stroke_id) → (stroke_end s sid d).1 = s) ∧
    (stroke_end (stroke_end s sid d).1 sid d).1 = (stroke_end s sid d).1 := by
  have hmain := stroke_end_state s sid u b d hu hb
  refine ⟨?_, ?_, ?_⟩
  · intro pre st post hsplit hpre hst
    rw [hmain, hsplit, markComplete_append pre post st d.stroke_id hpre hst]
  · intro hnone
    rw [hmain, markComplete_no_match b.strokes d.stroke_id hnone]
    rw [show ({ b with strokes := b.strokes } : Board P V) = b from rfl]
    rw [dictSet_eq_of_dictGet _ _ _ hb]
  · have hu2 : dictGet (stroke_end s sid d).1.users sid = some u := by
      rw [hmain]; exact hu
    have hb2 : dictGet (stroke_end s sid d).1.boards u.board_id =
        some ({ b with strokes := markComplete b.strokes d.stroke_id }) := by
      rw [hmain]; exact dictGet_dictSet_self _ _ _
    have h2 := stroke_end_state (stroke_end s sid d).1 sid u
      ({ b with strokes := markComplete b.strokes d.stroke_id }) d hu2 hb2
    rw [h2]
    dsimp only
    rw [markComplete_idem, dictSet_eq_of_dictGet _ _ _ hb2]

/-- C8 witness: ending the unfinished demo stroke `s2` marks it
completed in place. -/
theorem c8_stroke_end_completes_witness :
    (stroke_end demoState "s" ({ stroke_id := some "s2" })).1 = { demoState with boards := dictSet demoState.boards "b" ({ demoBoard with strokes := [demoStroke, { demoStroke2 with completed := true }] }) } :=
  (c8_stroke_end_completes demoState "s" demoU demoBoard { stroke_id := some "s2" }
    rfl rfl).1 [demoStroke] demoStroke2 [] rfl (by decide) rfl
